import Mathlib

/-!
Shallow embedding of the feature-vector / retrain pipeline of the
MY-PERFECT-MEAL repository (src/data_ml.py and src/LAUNCHER/LAUNCHER.py).

Python floats are modelled as rationals (the pipeline only moves the
bias values around, it never does float arithmetic on them, so the
representation is faithful for equality of vectors).  Python dicts with
optional keys are modelled as structures with Option fields, where
none means the key is absent and the dict .get default applies.
Database rows (already JSON-decoded, as produced by save_search_query)
are modelled as structures with concrete fields.
-/

namespace MyPerfectMeal

/-- A row of the Users table as seen by prepare_training_data
(src/data_ml.py line 154): user_id, temperature_bias, tourist_bias and
the emotion column, which may be NULL (none). -/
structure UserRow where
  user_id : Nat
  temperature_bias : Rat
  tourist_bias : Rat
  emotion : Option String
deriving DecidableEq, Repr

/-- A row of the Searches table after the json.loads calls of
prepare_training_data (src/data_ml.py lines 166-169): cuisines and
tastes are the decoded JSON lists, diet the stored string, price_range
the decoded JSON list of numbers. -/
structure SearchRow where
  user_id : Nat
  cuisines : List String
  tastes : List String
  diet : String
  price_range : List Rat
deriving DecidableEq, Repr

/-- A row of the Interactions table as consumed by
prepare_training_data (src/data_ml.py lines 150-151). -/
structure InteractionRow where
  user_id : Nat
  feedback : Int
deriving DecidableEq, Repr

/-- The user_info dict given to prepare_feature_vector
(src/data_ml.py lines 452-458).  Each field is none when the key is
absent from the dict, in which case the .get default of the source
applies (0.5, 0.5, "neutral"). -/
structure UserInfo where
  temperature_bias : Option Rat
  tourist_bias : Option Rat
  emotion : Option String
deriving DecidableEq, Repr

/-- The recent_search dict given to prepare_feature_vector
(src/data_ml.py lines 462-483).  Each field is none when the key is
absent, in which case the .get default applies ([], [], "None",
[1, 4]). -/
structure RecentSearch where
  cuisines : Option (List String)
  tastes : Option (List String)
  diet : Option String
  price_range : Option (List Rat)
deriving DecidableEq, Repr

/-- The cuisine vocabulary, identical literal in
prepare_training_data (line 172) and prepare_feature_vector
(line 461). -/
def all_cuisines : List String :=
  ["Italian", "American", "Mexican", "Japanese", "Asian", "European", "Mediterranean", "Thai"]

/-- The taste vocabulary, identical literal in prepare_training_data
(line 175) and prepare_feature_vector (line 468). -/
def all_tastes : List String :=
  ["Sweet", "Salty", "Sour", "Bitter", "Umami", "Spicy"]

/-- The one-hot comprehension shared by both paths:
[1 if v in chosen else 0 for v in vocab]
(src/data_ml.py lines 173, 176, 465, 472). -/
def oneHot (vocab : List String) (chosen : List String) : List Rat :=
  vocab.map (fun v => if v ∈ chosen then 1 else 0)

/-- The emotion dict lookup with default 1, the identical literal
in both paths: a dict get on the three-entry table
happy 2, neutral 1, sad 0 (src/data_ml.py lines 157 and 457-458).
The key is an Option String because the emotion column may be NULL;
a NULL key misses every entry and takes the default 1, exactly as the
Python dict .get does. -/
def emotionMapGet (key : Option String) : Rat :=
  match key with
  | none => 1
  | some s => if s = "happy" then 2 else if s = "neutral" then 1 else if s = "sad" then 0 else 1

/-- The diet one-hot, identical literal in both paths
(src/data_ml.py lines 178-182 and 476-480): flags in the fixed order
Vegan, Vegetarian, None. -/
def dietVector (diet : String) : List Rat :=
  [if diet = "Vegan" then 1 else 0,
   if diet = "Vegetarian" then 1 else 0,
   if diet = "None" then 1 else 0]

/-- Python str.title for ASCII strings, used at src/data_ml.py
lines 464 and 471: an alphabetic character right after a
non-alphabetic one (or at the start) is uppercased, any other
alphabetic character is lowercased, non-alphabetic characters pass
through.  The Boolean argument records whether the previous character
was alphabetic. -/
def pyTitleAux : Bool → List Char → List Char
  | _, [] => []
  | prevAlpha, c :: cs =>
    if c.isAlpha then
      (if prevAlpha then c.toLower else c.toUpper) :: pyTitleAux true cs
    else
      c :: pyTitleAux false cs

/-- Python str.title on a whole string (ASCII fragment). -/
def pyTitle (s : String) : String :=
  String.mk (pyTitleAux false s.data)

/-- The price destructuring of prepare_feature_vector
(src/data_ml.py lines 484-487): a list of exactly two entries is
unpacked, anything else (wrong length, or a non-list value, which
behaves the same because it also fails the isinstance test) falls back
to the default pair (1, 4). -/
def pricePair (pr : List Rat) : Rat × Rat :=
  match pr with
  | [a, b] => (a, b)
  | _ => (1, 4)

/-- prepare_feature_vector (src/data_ml.py lines 440-499): the
single-instance prediction path.  Dict .get defaults 0.5 / 0.5 /
"neutral" / [] / [] / "None" / [1, 4] as in the source; cuisines and
tastes are title-cased before the one-hot membership tests; the final
vector is the fixed-order concatenation of lines 490-496. -/
def prepare_feature_vector (user_info : UserInfo) (recent_search : RecentSearch) : List Rat :=
  let temperature_bias := user_info.temperature_bias.getD (1/2)
  let tourist_bias := user_info.tourist_bias.getD (1/2)
  let emotion := emotionMapGet (some (user_info.emotion.getD "neutral"))
  let cuisines := (recent_search.cuisines.getD []).map pyTitle
  let cuisine_vector := oneHot all_cuisines cuisines
  let tastes := (recent_search.tastes.getD []).map pyTitle
  let taste_vector := oneHot all_tastes tastes
  let diet := recent_search.diet.getD "None"
  let diet_vector := dietVector diet
  let p := pricePair (recent_search.price_range.getD [1, 4])
  [temperature_bias, tourist_bias, emotion] ++ cuisine_vector ++ taste_vector ++ diet_vector ++ [p.1, p.2]

/-- The per-interaction feature vector of prepare_training_data
(src/data_ml.py lines 153-196), given the joined user row and search
row: no title-casing of cuisines or tastes (lines 172-176 test the raw
decoded strings), and price_range is indexed directly at 0 and 1
(lines 184-185), so a list with fewer than two entries raises
IndexError, modelled as none; a longer list contributes its first two
entries. -/
def trainingFeatureOfRow (user_row : UserRow) (search_row : SearchRow) : Option (List Rat) :=
  match search_row.price_range with
  | p0 :: p1 :: _ =>
      some ([user_row.temperature_bias, user_row.tourist_bias, emotionMapGet user_row.emotion] ++
        oneHot all_cuisines search_row.cuisines ++
        oneHot all_tastes search_row.tastes ++
        dietVector search_row.diet ++
        [p0, p1])
  | _ => none

/-- One iteration of the interaction loop of prepare_training_data
(src/data_ml.py lines 149-197): look up the first Users row with this
user_id (iloc at 0 raises on an empty selection, modelled as error);
filter the Searches rows for this user and silently skip the
interaction when there are none (lines 160-162), otherwise take the
last one (iloc at -1, line 163) and build the feature vector paired
with the feedback label. -/
def processInteraction (users : List UserRow) (searches : List SearchRow)
    (interaction : InteractionRow) : Except String (Option (List Rat × Int)) :=
  match (users.filter (fun u => u.user_id == interaction.user_id)).head? with
  | none => Except.error "no Users row for user_id"
  | some user_row =>
    match (searches.filter (fun s => s.user_id == interaction.user_id)).getLast? with
    | none => Except.ok none
    | some search_row =>
      match trainingFeatureOfRow user_row search_row with
      | none => Except.error "price_range index out of range"
      | some v => Except.ok (some (v, interaction.feedback))

/-- prepare_training_data (src/data_ml.py lines 124-199): fold the
interaction loop over all Interactions rows in order, collecting the
feature matrix and the label vector; any raised exception aborts the
whole extraction. -/
def prepare_training_data (users : List UserRow) (searches : List SearchRow) :
    List InteractionRow → Except String (List (List Rat) × List Int)
  | [] => Except.ok ([], [])
  | i :: rest =>
    match processInteraction users searches i with
    | Except.error e => Except.error e
    | Except.ok none => prepare_training_data users searches rest
    | Except.ok (some (v, lab)) =>
      match prepare_training_data users searches rest with
      | Except.error e => Except.error e
      | Except.ok (data, labels) => Except.ok (v :: data, lab :: labels)

/-- An opaque fitted classifier (the sklearn RandomForest is an
external collaborator; only its predict behaviour matters to this
pipeline).  A model is its prediction function on 22-element feature
vectors. -/
structure Model where
  predictFn : List Rat → Int

/-- The classifier state of src/data_ml.py: the process-wide rf_model
global (line 15, absent at cold start) and the persisted artifact at
MODEL_PATH (saved by save_model, lines 503-513). -/
structure MLState where
  rf_model : Option Model
  saved_model : Option Model

/-- The message of the ValueError raised at src/data_ml.py line 434
when rf_model is None. -/
def modelNotLoadedMsg : String :=
  "Model not loaded. Please ensure the model file exists and is loaded correctly."

/-- predict_meal_recommendations (src/data_ml.py lines 430-438):
with no loaded model it raises (the ValueError of line 434, re-raised
as RuntimeError with the prefix of line 438), modelled as an error
result; with a loaded model it returns the model's prediction on the
feature vector. -/
def predict_meal_recommendations (m : Option Model) (feature_vector : List Rat) :
    Except String Int :=
  match m with
  | none => Except.error ("Error during prediction: " ++ modelNotLoadedMsg)
  | some model => Except.ok (model.predictFn feature_vector)

/-- The outcome of one retrain_model call: the early return of
src/data_ml.py lines 527-529 ("Insufficient data for model training.
Retraining aborted."), a completed retrain (lines 532-538), or an
exception propagated out of prepare_training_data. -/
inductive RetrainOutcome where
  | insufficientData : RetrainOutcome
  | retrained : RetrainOutcome
  | failed : RetrainOutcome
deriving DecidableEq, Repr

/-- retrain_model (src/data_ml.py lines 515-538).  The external
RandomForestClassifier fit (deterministic at the fixed random_state)
is passed in as the function fit.  On empty extracted data the global
rf_model and the persisted artifact are left exactly as they were; on
success both are replaced by the freshly fitted model (lines 532-537);
an exception inside prepare_training_data propagates before either is
touched. -/
def retrain_model (fit : List (List Rat) → List Int → Model)
    (users : List UserRow) (searches : List SearchRow) (interactions : List InteractionRow)
    (st : MLState) : MLState × RetrainOutcome :=
  match prepare_training_data users searches interactions with
  | Except.error _ => (st, RetrainOutcome.failed)
  | Except.ok (x, y) =>
    if x.length = 0 ∨ y.length = 0 then
      (st, RetrainOutcome.insufficientData)
    else
      let m := fit x y
      (⟨some m, some m⟩, RetrainOutcome.retrained)

/-- The keyword selection of surprise_me_recommendation
(src/LAUNCHER/LAUNCHER.py line 358): the recent search's cuisine list
when the prediction equals 1, the generic fallback otherwise. -/
def select_query_keywords (prediction : Int) (recent_cuisines : List String) : List String :=
  if prediction = 1 then recent_cuisines else ["restaurant"]

/-! Helper lemmas shared by the claim theorems. -/

/-- The prediction path's emotion lookup (dict default "neutral", then
table default 1) computes the same code as the training path's direct
table lookup with default 1. -/
theorem emotionMapGet_getD (e : Option String) :
    emotionMapGet (some (e.getD "neutral")) = emotionMapGet e := by
  cases e with
  | none => decide
  | some s => rfl

/-- The emotion code only takes the values 0, 1 and 2. -/
theorem emotionMapGet_cases (e : Option String) :
    emotionMapGet e = 0 ∨ emotionMapGet e = 1 ∨ emotionMapGet e = 2 := by
  cases e with
  | none => right; left; rfl
  | some s =>
    simp only [emotionMapGet]
    split_ifs <;> norm_num

/-- Title-casing a list of strings that are already title-cased is the
identity. -/
theorem map_pyTitle_fixed (l : List String) (h : ∀ c ∈ l, pyTitle c = c) :
    l.map pyTitle = l := by
  induction l with
  | nil => rfl
  | cons a t ih =>
    simp only [List.map_cons]
    rw [h a (List.mem_cons_self a t), ih (fun c hc => h c (List.mem_cons_of_mem a hc))]

/-- Strings outside the vocabulary contribute no one-hot flag: the
vector over a chosen list extended by out-of-vocabulary strings is
unchanged. -/
theorem oneHot_append_unknown (vocab cs extra : List String)
    (h : ∀ c ∈ extra, c ∉ vocab) :
    oneHot vocab (cs ++ extra) = oneHot vocab cs := by
  unfold oneHot
  apply List.map_congr_left
  intro v hv
  have hiff : v ∈ cs ++ extra ↔ v ∈ cs := by
    simp only [List.mem_append]
    constructor
    · rintro (h1 | h1)
      · exact h1
      · exact absurd hv (h v h1)
    · exact Or.inl
  simp [hiff]

/-- The third entry of the prediction-path vector is the emotion
code. -/
theorem prepare_feature_vector_get2 (u : UserInfo) (s : RecentSearch) :
    (prepare_feature_vector u s).get? 2 =
      some (emotionMapGet (some (u.emotion.getD "neutral"))) := by
  simp [prepare_feature_vector]

/-- A wrong-shape price_range (length other than two; a non-list value
takes the same fallback branch) destructures to the default pair. -/
theorem pricePair_malformed (pr : List Rat) (h : pr.length ≠ 2) :
    pricePair pr = (1, 4) := by
  rcases pr with _ | ⟨a, _ | ⟨b, _ | ⟨c, t⟩⟩⟩
  · rfl
  · rfl
  · exact absurd rfl h
  · rfl

/-- The last two entries of the prediction-path vector are the
destructured price pair. -/
theorem prepare_feature_vector_drop20 (u : UserInfo) (s : RecentSearch) :
    (prepare_feature_vector u s).drop 20 =
      [(pricePair (s.price_range.getD [1, 4])).1,
       (pricePair (s.price_range.getD [1, 4])).2] := by
  simp [prepare_feature_vector, oneHot, all_cuisines, all_tastes, dietVector]

/-! Claim theorems. -/

/-- C3: prepare_feature_vector on user state with temperature_bias
0.8, tourist_bias 0.2, emotion "happy" and recent search with
cuisines ["italian"], tastes [], diet "Vegetarian", price_range [1, 3]
returns exactly the 22-element vector
[0.8, 0.2, 2, 1,0,0,0,0,0,0,0, 0,0,0,0,0,0, 0,1,0, 1,3]. -/
theorem c3_scenario_vector :
    prepare_feature_vector ⟨some (4/5), some (1/5), some "happy"⟩
      ⟨some ["italian"], some [], some "Vegetarian", some [1, 3]⟩ =
      [4/5, 1/5, 2, 1, 0, 0, 0, 0, 0, 0, 0, 0, 0, 0, 0, 0, 0, 0, 1, 0, 1, 3] := rfl

/-- C5: predicting with no model ever trained or loaded (model state
absent) fails with the model-not-loaded error instead of returning a
prediction. -/
theorem c5_predict_without_model (feature_vector : List Rat) :
    predict_meal_recommendations none feature_vector =
      Except.error ("Error during prediction: " ++ modelNotLoadedMsg) := rfl

/-- C6: the recommendation selector returns the recent search's
cuisine list (possibly empty) exactly when the prediction is 1, and
the generic ["restaurant"] fallback otherwise. -/
theorem c6_selector_keywords (prediction : Int) (recent_cuisines : List String) :
    (prediction = 1 → select_query_keywords prediction recent_cuisines = recent_cuisines) ∧
    (prediction ≠ 1 → select_query_keywords prediction recent_cuisines = ["restaurant"]) := by
  constructor
  · intro h
    simp [select_query_keywords, h]
  · intro h
    simp [select_query_keywords, h]

/-- Witness for C6 at prediction 1 and prediction 0 with a concrete
cuisine list (the 0 case also covers the empty-list validity at 1). -/
theorem c6_selector_keywords_witness :
    select_query_keywords 1 ["Italian"] = ["Italian"] ∧
    select_query_keywords 0 ["Italian"] = ["restaurant"] ∧
    select_query_keywords 1 [] = [] :=
  ⟨(c6_selector_keywords 1 ["Italian"]).1 rfl,
   (c6_selector_keywords 0 ["Italian"]).2 (by decide),
   (c6_selector_keywords 1 []).1 rfl⟩

/-- C7: for the valid diet values "None", "Vegetarian", "Vegan"
exactly one of the three flags (ordered [Vegan, Vegetarian, None]) is
1; for any other diet string all three flags are 0. -/
theorem c7_diet_exclusivity (diet : String) :
    ((diet = "None" ∨ diet = "Vegetarian" ∨ diet = "Vegan") →
      dietVector diet = [1, 0, 0] ∨ dietVector diet = [0, 1, 0] ∨ dietVector diet = [0, 0, 1]) ∧
    (diet ≠ "None" → diet ≠ "Vegetarian" → diet ≠ "Vegan" →
      dietVector diet = [0, 0, 0]) := by
  constructor
  · rintro (rfl | rfl | rfl)
    · right; right; decide
    · right; left; decide
    · left; decide
  · intro h1 h2 h3
    simp [dietVector, h1, h2, h3]

/-- Witness for C7 at the valid value "Vegan" and the unrecognized
value "Keto". -/
theorem c7_diet_exclusivity_witness :
    (dietVector "Vegan" = [1, 0, 0] ∨ dietVector "Vegan" = [0, 1, 0] ∨
      dietVector "Vegan" = [0, 0, 1]) ∧
    dietVector "Keto" = [0, 0, 0] :=
  ⟨(c7_diet_exclusivity "Vegan").1 (Or.inr (Or.inr rfl)),
   (c7_diet_exclusivity "Keto").2 (by decide) (by decide) (by decide)⟩

/-- C10: an emotion value outside "happy", "neutral", "sad" -
including an absent one - is mapped to the neutral code 1 by the
shared table lookup on the training path (raw column value) and on the
prediction path (dict default "neutral" first); and the third vector
entry is always one of 0, 1, 2. -/
theorem c10_unknown_emotion (e : Option String) (u : UserInfo) (s : RecentSearch)
    (h : ∀ x, e = some x → x ≠ "happy" ∧ x ≠ "neutral" ∧ x ≠ "sad") :
    emotionMapGet e = 1 ∧
    emotionMapGet (some (e.getD "neutral")) = 1 ∧
    ((prepare_feature_vector u s).get? 2 = some 0 ∨
     (prepare_feature_vector u s).get? 2 = some 1 ∨
     (prepare_feature_vector u s).get? 2 = some 2) := by
  have h1 : emotionMapGet e = 1 := by
    cases e with
    | none => rfl
    | some x =>
      obtain ⟨hh, hn, hs⟩ := h x rfl
      simp [emotionMapGet, hh, hn, hs]
  refine ⟨h1, by rw [emotionMapGet_getD]; exact h1, ?_⟩
  rw [prepare_feature_vector_get2]
  rcases emotionMapGet_cases (some (u.emotion.getD "neutral")) with h2 | h2 | h2
  · left; rw [h2]
  · right; left; rw [h2]
  · right; right; rw [h2]

/-- Witness for C10 at the unknown emotion "angry" with empty user
and search dicts. -/
theorem c10_unknown_emotion_witness :
    emotionMapGet (some "angry") = 1 ∧
    emotionMapGet (some ((some "angry").getD "neutral")) = 1 ∧
    ((prepare_feature_vector ⟨none, none, none⟩ ⟨none, none, none, none⟩).get? 2 = some 0 ∨
     (prepare_feature_vector ⟨none, none, none⟩ ⟨none, none, none, none⟩).get? 2 = some 1 ∨
     (prepare_feature_vector ⟨none, none, none⟩ ⟨none, none, none, none⟩).get? 2 = some 2) :=
  c10_unknown_emotion (some "angry") ⟨none, none, none⟩ ⟨none, none, none, none⟩
    (by
      intro x hx
      injection hx with hx2
      subst hx2
      exact ⟨by decide, by decide, by decide⟩)

/-- C4: when the extracted training dataset is empty, retrain_model
takes the insufficient-data early return and leaves both the loaded
model and the persisted artifact exactly as they were (no refit, no
overwrite). -/
theorem c4_retrain_empty_data (fit : List (List Rat) → List Int → Model)
    (users : List UserRow) (searches : List SearchRow) (interactions : List InteractionRow)
    (st : MLState) (x : List (List Rat)) (y : List Int)
    (h : prepare_training_data users searches interactions = Except.ok (x, y))
    (hx : x.length = 0) :
    retrain_model fit users searches interactions st = (st, RetrainOutcome.insufficientData) := by
  simp [retrain_model, h, hx]

/-- Witness for C4: zero interactions on cold state. -/
theorem c4_retrain_empty_data_witness :
    retrain_model (fun _ _ => ⟨fun _ => 0⟩) [] [] [] ⟨none, none⟩ =
      (⟨none, none⟩, RetrainOutcome.insufficientData) :=
  c4_retrain_empty_data (fun _ _ => ⟨fun _ => 0⟩) [] [] [] ⟨none, none⟩ [] [] rfl rfl

/-- C1 counterexample: on the shared input with cuisines ["italian"]
(plus biases 1 and 0, emotion "happy", diet "Vegetarian", price range
[1, 3]) the training-data extraction path and the single-instance
prediction path produce different 22-element vectors: the training
path tests the raw string against the vocabulary and sets no cuisine
flag, the prediction path title-cases it first and sets the Italian
flag. -/
theorem c1_paths_differ_counterexample :
    trainingFeatureOfRow ⟨1, 1, 0, some "happy"⟩ ⟨1, ["italian"], [], "Vegetarian", [1, 3]⟩ ≠
      some (prepare_feature_vector ⟨some 1, some 0, some "happy"⟩
        ⟨some ["italian"], some [], some "Vegetarian", some [1, 3]⟩) := by
  decide

/-- C1 amended: the two encoding paths produce pointwise equal
22-element vectors whenever every cuisine and taste string is
unchanged by title-casing and the price range is a list of exactly two
numbers. -/
theorem c1_paths_agree_on_title_case (uid1 uid2 : Nat) (tb ob : Rat) (em : Option String)
    (cs ts : List String) (d : String) (a b : Rat)
    (hc : ∀ c ∈ cs, pyTitle c = c) (ht : ∀ t ∈ ts, pyTitle t = t) :
    trainingFeatureOfRow ⟨uid1, tb, ob, em⟩ ⟨uid2, cs, ts, d, [a, b]⟩ =
      some (prepare_feature_vector ⟨some tb, some ob, em⟩
        ⟨some cs, some ts, some d, some [a, b]⟩) := by
  simp [trainingFeatureOfRow, prepare_feature_vector, pricePair,
    map_pyTitle_fixed cs hc, map_pyTitle_fixed ts ht, emotionMapGet_getD]

/-- Witness for the amended C1 on an already title-cased input. -/
theorem c1_paths_agree_witness :
    trainingFeatureOfRow ⟨1, 1, 0, some "happy"⟩ ⟨1, ["Italian"], [], "Vegetarian", [1, 3]⟩ =
      some (prepare_feature_vector ⟨some 1, some 0, some "happy"⟩
        ⟨some ["Italian"], some [], some "Vegetarian", some [1, 3]⟩) :=
  c1_paths_agree_on_title_case 1 1 1 0 (some "happy") ["Italian"] [] "Vegetarian" 1 3
    (by decide) (by decide)

/-- C2 counterexample: on the training-data extraction path
membership is NOT tested after title-case normalization: the cuisine
string "italian" title-cases into the vocabulary, yet the path leaves
every cuisine flag at 0 because it compares the raw string. -/
theorem c2_no_normalization_in_training_counterexample :
    pyTitle "italian" ∈ all_cuisines ∧
    oneHot all_cuisines ["italian"] = [0, 0, 0, 0, 0, 0, 0, 0] ∧
    oneHot all_cuisines (["italian"].map pyTitle) = [1, 0, 0, 0, 0, 0, 0, 0] ∧
    trainingFeatureOfRow ⟨1, 1, 0, some "neutral"⟩ ⟨1, ["italian"], [], "None", [1, 4]⟩ =
      some [1, 0, 1, 0, 0, 0, 0, 0, 0, 0, 0, 0, 0, 0, 0, 0, 0, 0, 0, 1, 1, 4] := by
  decide

/-- C2 amended: title-case normalization happens before the
vocabulary membership test only on the prediction path; the training
path compares raw strings; on each path, any string outside the
vocabulary that path tests against (its title-cased form on the
prediction path, its raw form on the training path) contributes zero
one-hot flags for that vocabulary (the encoders are total, so no
input raises): appending such strings leaves that flag vector
unchanged.  Each vocabulary and path has its own hypothesis, so the
statement covers strings outside one vocabulary but inside the other,
and strings such as the raw "italian" on the training path whose
title-cased form is in the vocabulary. -/
theorem c2_unknown_strings_dropped (cs extra : List String) :
    ((∀ c ∈ extra, pyTitle c ∉ all_cuisines) →
      oneHot all_cuisines ((cs ++ extra).map pyTitle) = oneHot all_cuisines (cs.map pyTitle)) ∧
    ((∀ c ∈ extra, pyTitle c ∉ all_tastes) →
      oneHot all_tastes ((cs ++ extra).map pyTitle) = oneHot all_tastes (cs.map pyTitle)) ∧
    ((∀ c ∈ extra, c ∉ all_cuisines) →
      oneHot all_cuisines (cs ++ extra) = oneHot all_cuisines cs) ∧
    ((∀ c ∈ extra, c ∉ all_tastes) →
      oneHot all_tastes (cs ++ extra) = oneHot all_tastes cs) := by
  have hmt : ∀ vocab : List String, (∀ c ∈ extra, pyTitle c ∉ vocab) →
      oneHot vocab ((cs ++ extra).map pyTitle) = oneHot vocab (cs.map pyTitle) := by
    intro vocab hv
    rw [List.map_append]
    apply oneHot_append_unknown
    intro c hcm
    obtain ⟨c0, hc0, rfl⟩ := List.mem_map.mp hcm
    exact hv c0 hc0
  exact ⟨hmt all_cuisines, hmt all_tastes,
    oneHot_append_unknown all_cuisines cs extra,
    oneHot_append_unknown all_tastes cs extra⟩

/-- Witness for the amended C2: the raw string "italian" (whose
title-cased form IS a vocabulary cuisine) contributes no cuisine flag
on the raw-membership training path; the out-of-vocabulary string
"klingon" contributes no flag on the title-cased prediction path for
either vocabulary; and the cuisine-vocabulary word "Italian" used as
a taste contributes no taste flag. -/
theorem c2_unknown_strings_dropped_witness :
    oneHot all_cuisines (["Italian"] ++ ["italian"]) = oneHot all_cuisines ["Italian"] ∧
    oneHot all_cuisines ((["Italian"] ++ ["klingon"]).map pyTitle) =
      oneHot all_cuisines (["Italian"].map pyTitle) ∧
    oneHot all_tastes ((["Sweet"] ++ ["klingon"]).map pyTitle) =
      oneHot all_tastes (["Sweet"].map pyTitle) ∧
    oneHot all_tastes (["Sweet"] ++ ["Italian"]) = oneHot all_tastes ["Sweet"] :=
  ⟨(c2_unknown_strings_dropped ["Italian"] ["italian"]).2.2.1 (by decide),
   (c2_unknown_strings_dropped ["Italian"] ["klingon"]).1 (by decide),
   (c2_unknown_strings_dropped ["Sweet"] ["klingon"]).2.1 (by decide),
   (c2_unknown_strings_dropped ["Sweet"] ["Italian"]).2.2.2 (by decide)⟩

/-- C8 counterexample: the same malformed one-element price range [2]
makes the prediction path fall back to the default pair 1, 4 but makes
the training-data extraction path raise an IndexError (modelled as
none) instead of falling back, so the fallback does not hold on both
paths. -/
theorem c8_no_training_fallback_counterexample :
    trainingFeatureOfRow ⟨1, 1, 0, some "neutral"⟩ ⟨1, [], [], "None", [2]⟩ = none ∧
    (prepare_feature_vector ⟨some 1, some 0, some "neutral"⟩
      ⟨some [], some [], some "None", some [2]⟩).drop 20 = [1, 4] := by
  decide

/-- C8 amended: a price range that does not decompose into exactly
two numbers falls back to the default 1, 4 only on the prediction
path; the training-data extraction path indexes positions 0 and 1
directly and raises (modelled as none) when fewer than two entries are
present. -/
theorem c8_price_fallback_prediction_only (u : UserInfo) (cs ts : List String) (d : String)
    (pr : List Rat) (ur : UserRow) (uid : Nat) (h : pr.length ≠ 2) :
    (prepare_feature_vector u ⟨some cs, some ts, some d, some pr⟩).drop 20 = [1, 4] ∧
    (pr.length < 2 → trainingFeatureOfRow ur ⟨uid, cs, ts, d, pr⟩ = none) := by
  constructor
  · rw [prepare_feature_vector_drop20]
    simp [pricePair_malformed pr h]
  · intro hlt
    rcases pr with _ | ⟨a, _ | ⟨b, t⟩⟩
    · rfl
    · rfl
    · simp at hlt
      omega

/-- Witness for the amended C8 at the malformed price range [2]. -/
theorem c8_price_fallback_witness :
    (prepare_feature_vector ⟨some 1, some 0, some "neutral"⟩
      ⟨some [], some [], some "None", some [(2 : Rat)]⟩).drop 20 = [1, 4] ∧
    (([(2 : Rat)].length < 2) →
      trainingFeatureOfRow ⟨1, 1, 0, some "neutral"⟩ ⟨1, [], [], "None", [(2 : Rat)]⟩ = none) :=
  c8_price_fallback_prediction_only ⟨some 1, some 0, some "neutral"⟩ [] [] "None" [2]
    ⟨1, 1, 0, some "neutral"⟩ 1 (by decide)

/-- A list with at least two entries starts with two cons cells. -/
theorem exists_two_head (l : List Rat) (h : 2 ≤ l.length) :
    ∃ a b t, l = a :: b :: t := by
  rcases l with _ | ⟨a, _ | ⟨b, t⟩⟩
  · simp at h
  · simp at h
  · exact ⟨a, b, t, rfl⟩

/-- C9: training-data extraction succeeds with no error, every
interaction whose user has no Searches row is skipped silently, and
every interaction whose user has at least one Searches row contributes
exactly one (feature vector, label) pair: the row count equals the
number of interactions whose user has search history, and the label
vector is aligned with it.  Hypotheses: every interaction's user has a
Users row (the Interactions foreign key), every stored search has a
well-formed two-entry price range (what save_search_query writes). -/
theorem c9_skip_without_search (users : List UserRow) (searches : List SearchRow)
    (interactions : List InteractionRow)
    (hu : ∀ i ∈ interactions, ((users.filter (fun u => u.user_id == i.user_id)).head?).isSome)
    (hp : ∀ s ∈ searches, 2 ≤ s.price_range.length) :
    ∃ data labels,
      prepare_training_data users searches interactions = Except.ok (data, labels) ∧
      data.length = (interactions.filter
        (fun j => !(searches.filter (fun s2 => s2.user_id == j.user_id)).isEmpty)).length ∧
      labels.length = data.length := by
  induction interactions with
  | nil => exact ⟨[], [], rfl, rfl, rfl⟩
  | cons i rest ih =>
    obtain ⟨data, labels, hok, hlen, hll⟩ :=
      ih (fun j hj => hu j (List.mem_cons_of_mem i hj))
    obtain ⟨user_row, hur⟩ := Option.isSome_iff_exists.mp (hu i (List.mem_cons_self i rest))
    cases hlast : (searches.filter (fun s2 => s2.user_id == i.user_id)).getLast? with
    | none =>
      have hempty : (searches.filter (fun s2 => s2.user_id == i.user_id)) = [] :=
        List.getLast?_eq_none_iff.mp hlast
      refine ⟨data, labels, ?_, ?_, hll⟩
      · simp only [prepare_training_data, processInteraction, hur, hlast]
        exact hok
      · rw [List.filter_cons]
        simp [hempty, hlen]
    | some s =>
      have hs_mem : s ∈ searches := by
        have h2 := List.mem_getLast?_eq_getLast (x := s) (by rw [hlast]; rfl)
        obtain ⟨hne, rfl⟩ := h2
        exact (List.mem_filter.mp (List.getLast_mem hne)).1
      obtain ⟨a, b, t, hpr⟩ := exists_two_head s.price_range (hp s hs_mem)
      have htf : trainingFeatureOfRow user_row s =
          some ([user_row.temperature_bias, user_row.tourist_bias,
              emotionMapGet user_row.emotion] ++
            oneHot all_cuisines s.cuisines ++ oneHot all_tastes s.tastes ++
            dietVector s.diet ++ [a, b]) := by
        simp [trainingFeatureOfRow, hpr]
      have hne : (searches.filter (fun s2 => s2.user_id == i.user_id)) ≠ [] := by
        intro h0
        rw [h0] at hlast
        simp at hlast
      refine ⟨([user_row.temperature_bias, user_row.tourist_bias,
          emotionMapGet user_row.emotion] ++
        oneHot all_cuisines s.cuisines ++ oneHot all_tastes s.tastes ++
        dietVector s.diet ++ [a, b]) :: data, i.feedback :: labels, ?_, ?_, by simp [hll]⟩
      · simp only [prepare_training_data, processInteraction, hur, hlast, htf, hok]
      · rw [List.filter_cons]
        simp [List.isEmpty_eq_false.mpr hne, hlen]

/-- Witness for C9: one interaction for user 1, who has exactly one
search on file, yields exactly one training row with no error. -/
theorem c9_skip_without_search_witness :
    ∃ data labels,
      prepare_training_data [⟨1, 1, 0, some "happy"⟩]
        [⟨1, ["Italian"], [], "None", [1, 4]⟩] [⟨1, 1⟩] = Except.ok (data, labels) ∧
      data.length = (([⟨1, 1⟩] : List InteractionRow).filter
        (fun j => !(([⟨1, ["Italian"], [], "None", [1, 4]⟩] : List SearchRow).filter
          (fun s2 => s2.user_id == j.user_id)).isEmpty)).length ∧
      labels.length = data.length :=
  c9_skip_without_search [⟨1, 1, 0, some "happy"⟩] [⟨1, ["Italian"], [], "None", [1, 4]⟩]
    [⟨1, 1⟩] (by decide) (by decide)

end MyPerfectMeal
